import Mathlib

/-!
Verification of the tapdance custodian (src/custodian.c) and the isolated
test runner (src/lol.c).

The custodian is embedded shallowly: the mutable C state becomes explicit
state passing, heap side effects (allocator_free, cleanup callbacks, the
process abort) become an event trace, and entries carry an identifier
standing for the address of their backing allocation.
-/

/-- Side effects performed by custodian shutdown and abort.
`free i` is `allocator_free` of the entry whose backing allocation has
identifier `i`; `cleanup f h` is the call `res.cleanup(res.ptr)` where
`f` identifies the callback and `h` is the stored handle (`none` models a
NULL pointer); `abortProcess` is the final `abort()` in `custodian_abort`. -/
inductive CEvent : Type where
  | free : Nat → CEvent
  | cleanup : Nat → Option Nat → CEvent
  | abortProcess : CEvent
deriving DecidableEq

/-- A custodian stack entry (struct CustodianEntry and its tagged payload,
src/custodian.c). The tag in the low bits of `prev` becomes the variant:
`allocation` (TAG_ALLOCATION) records the entry id and the caller-requested
size; `resource` (TAG_RESOURCE) stores the CustodianResource pair
(ptr, cleanup), either of which may be NULL (`none`); `childScope`
(TAG_CUSTODIAN) embeds the child custodian, represented by its stack
(the child shares the enclosing node's allocator). The `prev` link itself
becomes the list structure of the stack. -/
inductive CEntry : Type where
  | allocation : Nat → Nat → CEntry
  | resource : Nat → Option Nat → Option Nat → CEntry
  | childScope : Nat → List CEntry → CEntry

/-- The event trace of the `while (entry)` loop of custodian_shutdown
(src/custodian.c lines 88-123), walking the stack top-first:
TAG_ALLOCATION frees the entry; TAG_RESOURCE calls the cleanup with the
stored pointer when the cleanup is non-NULL, then frees the entry;
TAG_CUSTODIAN recursively shuts down the embedded child, then frees the
entry. -/
def shutdownEvents : List CEntry → List CEvent
  | [] => []
  | CEntry.allocation i _ :: rest => CEvent.free i :: shutdownEvents rest
  | CEntry.resource i _ none :: rest => CEvent.free i :: shutdownEvents rest
  | CEntry.resource i h (some f) :: rest =>
      CEvent.cleanup f h :: CEvent.free i :: shutdownEvents rest
  | CEntry.childScope i s :: rest =>
      shutdownEvents s ++ CEvent.free i :: shutdownEvents rest

/-- The events releasing one entry, as performed by one iteration of the
shutdown loop. -/
def entryEvents : CEntry → List CEvent
  | CEntry.allocation i _ => [CEvent.free i]
  | CEntry.resource i _ none => [CEvent.free i]
  | CEntry.resource i h (some f) => [CEvent.cleanup f h, CEvent.free i]
  | CEntry.childScope i s => shutdownEvents s ++ [CEvent.free i]

/-- struct Custodian (src/custodian.h): the stack top, the borrowed
allocator (represented by an identifier), and the parent link (`none` for
a root). Because `parent` is a reference into the tree, the model carries
the parent node's state inline. -/
inductive Custodian : Type where
  | mk : List CEntry → Nat → Option Custodian → Custodian

def Custodian.stack : Custodian → List CEntry
  | Custodian.mk s _ _ => s

def Custodian.a : Custodian → Nat
  | Custodian.mk _ a _ => a

def Custodian.parent : Custodian → Option Custodian
  | Custodian.mk _ _ p => p

/-- custodian_init (src/custodian.c lines 37-41): empty stack, given
allocator, given parent. -/
def custodian_init (parent : Option Custodian) (a : Nat) : Custodian :=
  Custodian.mk [] a parent

/-- The `while (cur->parent != NULL)` walk of custodian_abort
(src/custodian.c lines 125-134). -/
def findRoot : Custodian → Custodian
  | Custodian.mk s a none => Custodian.mk s a none
  | Custodian.mk _ _ (some p) => findRoot p

/-- custodian_shutdown (src/custodian.c lines 88-123): the events of the
release loop, and the node afterwards (`c->stack = NULL`; the allocator
and parent fields are untouched). -/
def custodian_shutdown (c : Custodian) : List CEvent × Custodian :=
  (shutdownEvents c.stack, Custodian.mk [] c.a c.parent)

/-- custodian_abort (src/custodian.c lines 125-134): walk parent links to
the root, shut the root down, then `abort()`. The returned trace ends in
`abortProcess` and there is no resulting state: control never returns. -/
def custodian_abort (c : Custodian) : List CEvent :=
  (custodian_shutdown (findRoot c)).1 ++ [CEvent.abortProcess]

/-- Result of a custodian operation that may hit allocator exhaustion:
either a value, or the trace of the abort protocol. There is no error
value a caller could receive in-band — `aborted` carries no state and no
return value because `custodian_abort` never returns. -/
inductive OpResult (α : Type) : Type where
  | ok : α → OpResult α
  | aborted : List CEvent → OpResult α

/-- Pushing one entry on a node's stack, the common suffix of
custodian_alloc, custodian_defer and custodian_child_create
(`entry->prev = ptr_tag(c->stack, TAG); c->stack = entry;`). -/
def pushEntry (c : Custodian) (e : CEntry) : Custodian :=
  Custodian.mk (e :: c.stack) c.a c.parent

/-- custodian_alloc (src/custodian.c lines 43-53). `allocOk` is whether
the underlying `allocator_alloc` call succeeded; `entryId` identifies the
fresh allocation. On success the entry is pushed with TAG_ALLOCATION; on
failure custodian_abort runs. -/
def custodian_alloc (allocOk : Bool) (entryId : Nat) (c : Custodian)
    (size : Nat) : OpResult Custodian :=
  match allocOk with
  | true => OpResult.ok (pushEntry c (CEntry.allocation entryId size))
  | false => OpResult.aborted (custodian_abort c)

/-- custodian_defer (src/custodian.c lines 71-86): stores the pair
(ptr, f) in a CustodianResource and pushes the entry with TAG_RESOURCE;
on allocator failure custodian_abort runs. -/
def custodian_defer (allocOk : Bool) (entryId : Nat) (c : Custodian)
    (ptr : Option Nat) (f : Option Nat) : OpResult Custodian :=
  match allocOk with
  | true => OpResult.ok (pushEntry c (CEntry.resource entryId ptr f))
  | false => OpResult.aborted (custodian_abort c)

/-- custodian_child_create (src/custodian.c lines 55-69): allocates an
entry embedding a fresh child custodian, initializes the child with the
parent's allocator and the parent as parent, pushes the entry with
TAG_CUSTODIAN, and returns the child. The result pairs the parent's new
state with the child. -/
def custodian_child_create (allocOk : Bool) (entryId : Nat)
    (parent : Custodian) : OpResult (Custodian × Custodian) :=
  match allocOk with
  | true =>
      OpResult.ok (pushEntry parent (CEntry.childScope entryId []),
        custodian_init (some (pushEntry parent (CEntry.childScope entryId []))) parent.a)
  | false => OpResult.aborted (custodian_abort parent)

/-! Byte-size model of custodian_alloc (for C1). `sizeof(CustodianEntry)`
is the size of one pointer (8 on the 64-bit reference target; any C
implementation gives it a positive size). -/

def sizeofCustodianEntry : Nat := 8

/-- The size custodian_alloc passes to allocator_alloc
(src/custodian.c line 44): exactly the caller's `size`, with no room
added for the entry header. -/
def allocRequestSize (size : Nat) : Nat := size

/-- The offset of the pointer custodian_alloc returns, from the start of
the underlying allocation: `(char *)entry + sizeof(CustodianEntry)`
(src/custodian.c line 52). -/
def allocReturnOffset : Nat := sizeofCustodianEntry

/-- The size custodian_defer passes to allocator_alloc
(src/custodian.c line 72): header plus payload. -/
def deferRequestSize (payload : Nat) : Nat := sizeofCustodianEntry + payload

/-! Model of the per-test runner blocks of src/lol.c. Each generated
block forks a child, waits, classifies the wait status into exactly one
TAP result line, and on any non-pass outcome replays the capture file as
diagnostics. Capture-file contents are byte lists. -/

/-- The child's wait status as the parent observes it: normal exit
(WIFEXITED, with WEXITSTATUS), termination by a signal (WIFSIGNALED, with
WTERMSIG), or anything else. -/
inductive WaitStatus : Type where
  | exited : Nat → WaitStatus
  | signaled : Nat → WaitStatus
  | other : WaitStatus
deriving DecidableEq

/-- The watchdog signal: the child arms `alarm(10)`, whose expiry delivers
SIGALRM (number 14 on the reference target). -/
def SIGALRM : Nat := 14

/-- The single TAP result line emitted for the test at index `i` with
display string `d` (src/lol.c lines 83-96): exit 0 → ok; nonzero exit →
exit code; the watchdog signal → timeout after 10s; any other signal →
killed by signal; anything else → unknown failure. -/
def classify_line (i : Nat) (d : String) (st : WaitStatus) : String :=
  match st with
  | WaitStatus.exited 0 => s!"ok {i} - {d}"
  | WaitStatus.exited n => s!"not ok {i} - {d} (exit code: {n})"
  | WaitStatus.signaled n =>
      if n = SIGALRM then s!"not ok {i} - {d} (timeout after 10s)"
      else s!"not ok {i} - {d} (killed by signal {n})"
  | WaitStatus.other => s!"not ok {i} - {d} (unknown failure)"

/-- Read-buffer size of the diagnostics loop (src/lol.c: BUFLEN). -/
def BUFLEN : Nat := 1024

/-- The newline byte, as compared against `line_buf[len-1]`. -/
def NLBYTE : Nat := 10

/-- One `fgets(line_buf, n+1, fp)` step on the remaining bytes: read at
most `n` bytes, stopping right after a newline; the result pairs the
bytes read with the bytes left. An empty first component models fgets
returning NULL at end of file. -/
def fgetsGo : Nat → List Nat → List Nat × List Nat
  | 0, rest => ([], rest)
  | _ + 1, [] => ([], [])
  | n + 1, b :: rest =>
      if b = NLBYTE then ([b], rest)
      else
        let r := fgetsGo n rest
        (b :: r.1, r.2)

/-- `fgets(line_buf, BUFLEN, fp)`: reads at most BUFLEN - 1 bytes. -/
def fgetsChunk (input : List Nat) : List Nat × List Nat :=
  fgetsGo (BUFLEN - 1) input

/-- The bytes of the diagnostic marker the runner prints at the start of
each fresh logical line. -/
def hashColonSpace : List Nat := [35, 58, 32]

/-- The `while (fgets(...))` diagnostics loop of src/lol.c lines 103-121.
`freshLine` is the fresh_line flag: when set, the marker is printed before
the chunk. A chunk ending in a newline resets the flag; a short chunk not
ending in a newline is end-of-file without a trailing newline, so one is
printed; a full-length chunk (length BUFLEN - 1) without a newline is
treated as a partial line and the flag stays clear. The fuel only bounds
iteration; `input.length + 1` always suffices because every iteration
consumes at least one byte. -/
def streamLoop : Nat → List Nat → Bool → List Nat
  | 0, _, _ => []
  | fuel + 1, input, freshLine =>
      let chunk := (fgetsChunk input).1
      let rest := (fgetsChunk input).2
      if chunk = [] then []
      else
        let pre := if freshLine then hashColonSpace else []
        if 0 < chunk.length ∧ chunk.getLast? = some NLBYTE then
          pre ++ chunk ++ streamLoop fuel rest true
        else if chunk.length < BUFLEN - 1 then
          pre ++ chunk ++ NLBYTE :: streamLoop fuel rest true
        else
          pre ++ chunk ++ streamLoop fuel rest false

/-- Replay of the rewound capture file as TAP diagnostics. -/
def streamDiagnostics (input : List Nat) : List Nat :=
  streamLoop (input.length + 1) input true

/-- The clean-pass test of src/lol.c line 83:
`WIFEXITED(status) && WEXITSTATUS(status) == 0`. -/
def isCleanPass : WaitStatus → Bool
  | WaitStatus.exited 0 => true
  | _ => false

/-- Diagnostics emitted for one test: none on a clean pass (the replay
loop sits in the else branch), the capture replay otherwise. -/
def testDiagnostics (st : WaitStatus) (capture : List Nat) : List Nat :=
  match isCleanPass st with
  | true => []
  | false => streamDiagnostics capture

theorem shutdownEvents_cons (e : CEntry) (rest : List CEntry) :
    shutdownEvents (e :: rest) = entryEvents e ++ shutdownEvents rest := by
  cases e with
  | allocation i sz => simp [shutdownEvents, entryEvents]
  | resource i h f => cases f <;> simp [shutdownEvents, entryEvents]
  | childScope i s => simp [shutdownEvents, entryEvents]

theorem findRoot_parent_none : ∀ c : Custodian, (findRoot c).parent = none
  | Custodian.mk _ _ none => by simp [findRoot, Custodian.parent]
  | Custodian.mk _ _ (some p) => by
      simp only [findRoot]
      exact findRoot_parent_none p

/-- C1 (code bug evidence): custodian_alloc asks the allocator for exactly
`size` bytes, yet returns the pointer at offset `sizeof(CustodianEntry)`
into that allocation; for every `size` the allocation is strictly smaller
than the header plus `size` caller-visible bytes, so the caller-visible
region is never fully backed by the allocation. (Contrast custodian_defer
and custodian_child_create, which request header plus payload.) -/
theorem custodian_alloc_allocation_too_small (size : Nat) :
    allocRequestSize size < allocReturnOffset + size
  ∧ deferRequestSize size = sizeofCustodianEntry + size := by
  constructor
  · simp [allocRequestSize, allocReturnOffset, sizeofCustodianEntry]
  · rfl

/-- C2: custodian_shutdown leaves the node exactly as custodian_init made
it (empty stack, same allocator, same parent), and a second shutdown
performs no events at all — no cleanup callbacks, no releases — and
leaves the state unchanged. -/
theorem custodian_shutdown_idempotent (c : Custodian) :
    (custodian_shutdown c).2 = custodian_init c.parent c.a
  ∧ custodian_shutdown ((custodian_shutdown c).2) = ([], (custodian_shutdown c).2) := by
  constructor
  · rfl
  · simp [custodian_shutdown, custodian_init, Custodian.stack, Custodian.a,
      Custodian.parent, shutdownEvents]

/-- C6: with the allocator failing, custodian_alloc, custodian_defer and
custodian_child_create all run custodian_abort, whose trace is the
shutdown of the node found by walking parent links up to the root
(its parent is `none`) followed by the abnormal process termination.
`OpResult.aborted` carries no return value: abort never returns and no
error is returned in-band. -/
theorem custodian_allocator_failure_aborts (c : Custodian) (sz i j k : Nat)
    (h f : Option Nat) :
    custodian_alloc false i c sz = OpResult.aborted (custodian_abort c)
  ∧ custodian_defer false j c h f = OpResult.aborted (custodian_abort c)
  ∧ custodian_child_create false k c = OpResult.aborted (custodian_abort c)
  ∧ (findRoot c).parent = none
  ∧ custodian_abort c = (custodian_shutdown (findRoot c)).1 ++ [CEvent.abortProcess] :=
  ⟨rfl, rfl, rfl, findRoot_parent_none c, rfl⟩

/-- C10: every custodian operation copies the allocator and parent fields
unchanged into the resulting node; only the stack changes. (On allocator
failure the operations return no node at all, and custodian_abort never
returns.) -/
theorem custodian_ops_preserve_allocator_and_parent (i sz : Nat)
    (h f : Option Nat) (c : Custodian) :
    custodian_alloc true i c sz =
      OpResult.ok (Custodian.mk (CEntry.allocation i sz :: c.stack) c.a c.parent)
  ∧ custodian_defer true i c h f =
      OpResult.ok (Custodian.mk (CEntry.resource i h f :: c.stack) c.a c.parent)
  ∧ custodian_child_create true i c =
      OpResult.ok (Custodian.mk (CEntry.childScope i [] :: c.stack) c.a c.parent,
        custodian_init
          (some (Custodian.mk (CEntry.childScope i [] :: c.stack) c.a c.parent)) c.a)
  ∧ (custodian_shutdown c).2 = Custodian.mk [] c.a c.parent :=
  ⟨rfl, rfl, rfl, rfl⟩

/-- C3: shutdown releases pushed entries in reverse push order. Entries
pushed in order A, B, C (each push — by custodian_alloc, custodian_defer
or custodian_child_create — is an instance of `pushEntry`, as the first
three conjuncts state) are released in order C, B, A, before whatever the
stack held before. -/
theorem custodian_shutdown_lifo (c0 : Custodian) (eA eB eC : CEntry) :
    (∀ i sz, custodian_alloc true i c0 sz =
      OpResult.ok (pushEntry c0 (CEntry.allocation i sz)))
  ∧ (∀ i h f, custodian_defer true i c0 h f =
      OpResult.ok (pushEntry c0 (CEntry.resource i h f)))
  ∧ (∀ i, custodian_child_create true i c0 =
      OpResult.ok (pushEntry c0 (CEntry.childScope i []),
        custodian_init (some (pushEntry c0 (CEntry.childScope i []))) c0.a))
  ∧ (custodian_shutdown (pushEntry (pushEntry (pushEntry c0 eA) eB) eC)).1 =
      entryEvents eC ++ (entryEvents eB ++ (entryEvents eA ++ shutdownEvents c0.stack)) := by
  refine ⟨fun i sz => rfl, fun i h f => rfl, fun i => rfl, ?_⟩
  simp [custodian_shutdown, pushEntry, Custodian.stack, Custodian.a,
    Custodian.parent, shutdownEvents_cons]

/-- C4: when shutdown reaches a ChildScope entry, the whole event trace of
the embedded child custodian — recursively, via the same shutdown loop —
comes first, then the free of the child entry itself, and only then the
events of the entries below it on the enclosing stack. There is no
separate pre-pass over children. -/
theorem custodian_shutdown_child_before_rest (i : Nat) (s rest : List CEntry)
    (a : Nat) (p : Option Custodian) :
    (custodian_shutdown (Custodian.mk (CEntry.childScope i s :: rest) a p)).1 =
      shutdownEvents s ++ CEvent.free i :: shutdownEvents rest := by
  simp [custodian_shutdown, Custodian.stack, shutdownEvents]

/-- C5: a deferred entry with a `none` cleanup contributes exactly one
event to shutdown — the allocator_free reclaiming the entry's own storage.
No cleanup call happens and the stored handle is never used (the shutdown
loop only ever passes the handle to the cleanup callable). -/
theorem custodian_defer_none_cleanup (i : Nat) (h : Option Nat)
    (rest : List CEntry) (a : Nat) (p : Option Custodian) :
    custodian_defer true i (Custodian.mk rest a p) h none =
      OpResult.ok (Custodian.mk (CEntry.resource i h none :: rest) a p)
  ∧ (custodian_shutdown (Custodian.mk (CEntry.resource i h none :: rest) a p)).1 =
      CEvent.free i :: shutdownEvents rest := by
  refine ⟨rfl, ?_⟩
  simp [custodian_shutdown, Custodian.stack, shutdownEvents]

theorem fgetsGo_nil (n : Nat) : fgetsGo n [] = ([], []) := by
  cases n <;> rfl

theorem streamLoop_nil (fuel : Nat) (b : Bool) : streamLoop fuel [] b = [] := by
  cases fuel with
  | zero => rfl
  | succ k => simp [streamLoop, fgetsChunk, fgetsGo_nil]

theorem fgetsGo_no_newline (n a : Nat) (ha : a ≠ NLBYTE) :
    fgetsGo n (List.replicate n a) = (List.replicate n a, []) := by
  induction n with
  | zero => rfl
  | succ k ih => simp [fgetsGo, List.replicate_succ, ha, ih]

theorem streamLoop_full_chunk_at_eof (fuel : Nat) (input chunk : List Nat)
    (h1 : fgetsChunk input = (chunk, []))
    (h2 : chunk ≠ [])
    (h3 : chunk.getLast? ≠ some NLBYTE)
    (h4 : ¬ chunk.length < BUFLEN - 1) :
    streamLoop (fuel + 1) input true = hashColonSpace ++ chunk := by
  simp only [streamLoop, h1]
  simp [h2, h3, h4, streamLoop_nil]

/-- C7: the classification of the child's wait status, case by case, at
any index and display string: exit 0 → the ok line; nonzero exit `n` →
exit code line; the watchdog signal SIGALRM → timeout line; any other
signal `m` → killed-by-signal line; any other status → unknown failure.
`classify_line` returns the single result line the block prints. -/
theorem runner_classifies_wait_status (i n m : Nat) (d : String)
    (hn : n ≠ 0) (hm : m ≠ SIGALRM) :
    classify_line i d (WaitStatus.exited 0) = s!"ok {i} - {d}"
  ∧ classify_line i d (WaitStatus.exited n) = s!"not ok {i} - {d} (exit code: {n})"
  ∧ classify_line i d (WaitStatus.signaled SIGALRM) = s!"not ok {i} - {d} (timeout after 10s)"
  ∧ classify_line i d (WaitStatus.signaled m) = s!"not ok {i} - {d} (killed by signal {m})"
  ∧ classify_line i d WaitStatus.other = s!"not ok {i} - {d} (unknown failure)" := by
  refine ⟨rfl, ?_, ?_, ?_, rfl⟩
  · cases n with
    | zero => exact absurd rfl hn
    | succ k => rfl
  · simp [classify_line]
  · simp [classify_line, hm]

/-- Witness for C7 at index 3, display "test_segfault()", exit code 1,
signal 11. -/
theorem runner_classifies_wait_status_witness :
    classify_line 3 "test_segfault()" (WaitStatus.exited 0) = "ok 3 - test_segfault()"
  ∧ classify_line 3 "test_segfault()" (WaitStatus.exited 1) =
      "not ok 3 - test_segfault() (exit code: 1)"
  ∧ classify_line 3 "test_segfault()" (WaitStatus.signaled SIGALRM) =
      "not ok 3 - test_segfault() (timeout after 10s)"
  ∧ classify_line 3 "test_segfault()" (WaitStatus.signaled 11) =
      "not ok 3 - test_segfault() (killed by signal 11)"
  ∧ classify_line 3 "test_segfault()" WaitStatus.other =
      "not ok 3 - test_segfault() (unknown failure)" :=
  runner_classifies_wait_status 3 1 11 "test_segfault()" (by decide) (by decide)

set_option maxRecDepth 100000 in
/-- C8 (code bug evidence): on a capture file of exactly BUFLEN - 1 = 1023
bytes (here byte 97, 'a') with no trailing newline, the replay emits the
marker and the bytes but synthesizes no newline: the final chunk fills the
buffer, so the `len < BUFLEN - 1` test misclassifies end-of-file as a
line to be continued. The capture is nonempty and ends without a newline
(third and fourth conjuncts), yet the emitted diagnostics do not end in a
newline either (second conjunct), against the stated synthesis guarantee.
A clean pass emits no diagnostics (last conjunct). -/
theorem stream_missing_final_newline :
    streamDiagnostics (List.replicate 1023 97) =
      hashColonSpace ++ List.replicate 1023 97
  ∧ (streamDiagnostics (List.replicate 1023 97)).getLast? ≠ some NLBYTE
  ∧ List.replicate 1023 97 ≠ []
  ∧ (List.replicate 1023 97).getLast? ≠ some NLBYTE
  ∧ testDiagnostics (WaitStatus.exited 0) (List.replicate 1023 97) = [] := by
  have hchunk : fgetsChunk (List.replicate 1023 97) = (List.replicate 1023 97, []) := by
    have h := fgetsGo_no_newline 1023 97 (by decide)
    simpa [fgetsChunk, BUFLEN] using h
  have hlast : (List.replicate 1023 97).getLast? = some 97 := by decide
  have hmain : streamDiagnostics (List.replicate 1023 97) =
      hashColonSpace ++ List.replicate 1023 97 := by
    unfold streamDiagnostics
    exact streamLoop_full_chunk_at_eof _ _ _ hchunk (by decide)
      (by rw [hlast]; decide) (by simp [BUFLEN])
  refine ⟨hmain, ?_, by decide, by rw [hlast]; decide, rfl⟩
  rw [hmain]
  decide

/-- C9: a deferred entry with a non-none cleanup contributes exactly one
cleanup event, carrying the stored handle as the argument — also when that
handle is `none` (`h` here ranges over `none` too) — followed by the free
of the entry's storage. -/
theorem custodian_cleanup_called_with_stored_handle (i f : Nat) (h : Option Nat)
    (rest : List CEntry) (a : Nat) (p : Option Custodian) :
    custodian_defer true i (Custodian.mk rest a p) h (some f) =
      OpResult.ok (Custodian.mk (CEntry.resource i h (some f) :: rest) a p)
  ∧ (custodian_shutdown (Custodian.mk (CEntry.resource i h (some f) :: rest) a p)).1 =
      CEvent.cleanup f h :: CEvent.free i :: shutdownEvents rest := by
  refine ⟨rfl, ?_⟩
  simp [custodian_shutdown, Custodian.stack, shutdownEvents]
